import Mathlib

/-!
Verification development for the invoice-recognition repository.

The definitions below are a shallow embedding of the Python sources:
  src/models/data_extractor.py  (DataExtractor)
  src/models/table_parser.py    (TableParser)
  src/models/ocr.py             (OCRProcessor._postprocess_text)
  src/models/invoice_processor.py (InvoiceProcessor.extract_structured_data)
  src/models/queue_manager.py   (QueueManager)

Strings are modelled as lists of characters; Python machine integers and
timestamps are modelled as Nat (time.time() values are passed explicitly as a
parameter wherever the source calls time.time()).  Python regular expressions
are modelled by a small backtracking matcher whose semantics (ordered
alternation, greedy character-class repetition with give-back, leftmost search)
coincide with CPython re for the patterns occurring in this repository.
-/

namespace Invoice

/-! ### Character helpers (Python semantics, restricted to the character
ranges this repository actually manipulates: ASCII and the Cyrillic block).
Python \s and \d are Unicode-aware; the sources only ever feed them ASCII
whitespace and ASCII digits, which is what we model. -/

def digitChar (n : Nat) : Char := Char.ofNat (48 + n)

def digitVal (c : Char) : Nat := c.toNat - 48

def isDigitCh (c : Char) : Bool := c.isDigit

def isUpperLat (c : Char) : Bool := 65 ≤ c.toNat && c.toNat ≤ 90

def isLowerLat (c : Char) : Bool := 97 ≤ c.toNat && c.toNat ≤ 122

def isUpperCyr (c : Char) : Bool := 1040 ≤ c.toNat && c.toNat ≤ 1071

def isLowerCyr (c : Char) : Bool := 1072 ≤ c.toNat && c.toNat ≤ 1103

/-- Python str.lower / re.IGNORECASE case folding for the characters used by
the repository patterns (Latin and Cyrillic letters). -/
def pyLowerCh (c : Char) : Char :=
  if isUpperLat c then Char.ofNat (c.toNat + 32)
  else if isUpperCyr c then Char.ofNat (c.toNat + 32)
  else if c.toNat = 1025 then Char.ofNat 1105
  else c

/-- Python \s for the ASCII whitespace characters. -/
def clsWs (c : Char) : Bool :=
  c == ' ' || c == '\t' || c == '\n' || c == '\r' || c == '\x0b' || c == '\x0c'

/-! ### List/string utilities mirroring Python primitives. -/

/-- Python s[a:b] (indices already clamped; spans come from the matcher). -/
def slice (l : List Char) (a b : Nat) : List Char := (l.take b).drop a

/-- Python str.strip() with no argument: strip ASCII whitespace at both ends. -/
def pyStrip (l : List Char) : List Char :=
  ((l.dropWhile clsWs).reverse.dropWhile clsWs).reverse

theorem length_dropWhile_le (p : Char → Bool) (l : List Char) :
    (l.dropWhile p).length ≤ l.length := by
  induction l with
  | nil => simp [List.dropWhile]
  | cons c cs ih =>
    by_cases h : p c
    · simp [List.dropWhile, h]; omega
    · simp [List.dropWhile, h]

/-- Python str.split() with no argument: split on runs of whitespace,
dropping empty pieces.  The fuel argument (initially the list length, which
strictly bounds the recursion depth) keeps the recursion structural so that
the kernel can evaluate the function. -/
def pySplitF : Nat → List Char → List (List Char)
  | _, [] => []
  | 0, l => [l]
  | fuel + 1, c :: rest =>
    if clsWs c then pySplitF fuel rest
    else (c :: rest.takeWhile (fun x => !clsWs x)) ::
      pySplitF fuel (rest.dropWhile (fun x => !clsWs x))

def pySplit (l : List Char) : List (List Char) := pySplitF l.length l

/-- The expression ' '.join(text.split()) from _postprocess_text. -/
def wsCollapse (l : List Char) : List Char :=
  List.intercalate [' '] (pySplit l)

/-- Python str.replace(old, new) for nonempty old: replace every
non-overlapping occurrence, scanning left to right (fuel as in pySplitF). -/
def replaceAllF (old new : List Char) : Nat → List Char → List Char
  | _, [] => []
  | 0, l => l
  | fuel + 1, c :: rest =>
    if old.isPrefixOf (c :: rest) && !old.isEmpty then
      new ++ replaceAllF old new fuel ((c :: rest).drop old.length)
    else
      c :: replaceAllF old new fuel rest

def replaceAll (old new l : List Char) : List Char :=
  replaceAllF old new l.length l

/-- Python substring containment (the in operator on str). -/
def containsSub (needle : List Char) : List Char → Bool
  | [] => needle.isEmpty
  | c :: rest => needle.isPrefixOf (c :: rest) || containsSub needle rest

/-- Decimal rendering of a Nat (used for %Y in strftime, which glibc renders
without padding).  Fuel as in pySplitF; n itself bounds the digit count. -/
def natDecAux : Nat → Nat → List Char
  | 0, n => [digitChar (n % 10)]
  | fuel + 1, n =>
    if n < 10 then [digitChar n]
    else natDecAux fuel (n / 10) ++ [digitChar (n % 10)]

def natDecimal (n : Nat) : List Char := natDecAux n n

/-- Two-digit zero-padded rendering (%d and %m in strftime). -/
def pad2 (n : Nat) : List Char := [digitChar (n / 10 % 10), digitChar (n % 10)]

/-- Digits to value, most significant first. -/
def natOfDigits (l : List Char) : Nat :=
  l.foldl (fun a c => a * 10 + digitVal c) 0

/-! ### A backtracking regular-expression matcher.

Constructors cover exactly the syntax used by the repository patterns:
single-character classes, sequencing, ordered alternation, greedy Kleene star
of a character class, and one capture group.  Matching is
continuation-passing, which reproduces CPython re backtracking: alternatives
are tried left to right, and a greedy star first consumes the maximal run and
then gives characters back one at a time. -/

inductive RE where
  | eps : RE
  | cls : (Char → Bool) → RE
  | seq : RE → RE → RE
  | alt : RE → RE → RE
  | starCls : (Char → Bool) → RE
  | grp : RE → RE

/-- Length of the maximal prefix satisfying p. -/
def countLeading (p : Char → Bool) : List Char → Nat
  | [] => 0
  | c :: cs => if p c then countLeading p cs + 1 else 0

/-- Match result: end position of the whole match and the capture-group span. -/
abbrev MRes := Nat × Option (Nat × Nat)

/-- Greedy star: try consuming n characters first, then give back. -/
def starTry (k : List Char → Nat → Option (Nat × Nat) → Option MRes)
    (s : List Char) (pos : Nat) (g : Option (Nat × Nat)) : Nat → Option MRes
  | 0 => k s pos g
  | n + 1 =>
    match k (s.drop (n + 1)) (pos + (n + 1)) g with
    | some r => some r
    | none => starTry k s pos g n

def mrun : RE → List Char → Nat → Option (Nat × Nat) →
    (List Char → Nat → Option (Nat × Nat) → Option MRes) → Option MRes
  | .eps, s, pos, g, k => k s pos g
  | .cls _, [], _, _, _ => none
  | .cls p, c :: s, pos, g, k => if p c then k s (pos + 1) g else none
  | .seq a b, s, pos, g, k =>
    mrun a s pos g (fun s2 pos2 g2 => mrun b s2 pos2 g2 k)
  | .alt a b, s, pos, g, k =>
    match mrun a s pos g k with
    | some r => some r
    | none => mrun b s pos g k
  | .starCls p, s, pos, g, k => starTry k s pos g (countLeading p s)
  | .grp a, s, pos, g, k =>
    mrun a s pos g (fun s2 pos2 _ => k s2 pos2 (some (pos, pos2)))

/-- re.search: try each start position left to right; the result is
(start, end, group-1 span). The list argument is the suffix starting at
position i of the full subject. -/
def searchAux (re : RE) : List Char → Nat → Option (Nat × Nat × Option (Nat × Nat))
  | s, i =>
    match mrun re s i none (fun _ pos g => some (pos, g)) with
    | some (e, g) => some (i, e, g)
    | none =>
      match s with
      | [] => none
      | _ :: t => searchAux re t (i + 1)

def reSearch (re : RE) (s : List Char) : Option (Nat × Nat × Option (Nat × Nat)) :=
  searchAux re s 0

/-! ### Pattern construction helpers. -/

/-- Literal string; ci selects re.IGNORECASE comparison. -/
def reLit (ci : Bool) (w : String) : RE :=
  w.toList.foldr
    (fun c r => .seq (.cls (fun x => if ci then pyLowerCh x == pyLowerCh c else x == c)) r)
    .eps

/-- Ordered alternation of literal strings. -/
def reAlts (ci : Bool) : List String → RE
  | [] => .eps
  | [w] => reLit ci w
  | w :: rest => .alt (reLit ci w) (reAlts ci rest)

/-- Exactly n repetitions of a character class. -/
def reRepN (p : Char → Bool) : Nat → RE
  | 0 => .eps
  | n + 1 => .seq (.cls p) (reRepN p n)

def rePlus (p : Char → Bool) : RE := .seq (.cls p) (.starCls p)

def reOpt (p : Char → Bool) : RE := .alt (.cls p) .eps

/-! ### The character classes appearing in the repository patterns. -/

def clsSpNumHash (c : Char) : Bool := clsWs c || c == '№' || c == '#'

def clsSpColon (c : Char) : Bool := clsWs c || c == ':'

def clsDateSep (c : Char) : Bool := c == '.' || c == '/' || c == '-'

def clsAmtSep (c : Char) : Bool := clsWs c || c == '.' || c == ','

def clsNotNL (c : Char) : Bool := c != '\n'

/-- The class [A-ZА-Я0-9-] under re.IGNORECASE. -/
def clsInvNum (c : Char) : Bool :=
  isUpperLat c || isLowerLat c || isUpperCyr c || isLowerCyr c ||
    isDigitCh c || c == '-'

/-- Shared body (\d+[\s.,]?\d*) of the amount patterns. -/
def amountBody : RE :=
  .seq (rePlus isDigitCh) (.seq (reOpt clsAmtSep) (.starCls isDigitCh))

/-- Body of the date patterns: two digits, one of dot slash dash, two
digits, the same separator class, four digits. -/
def dateBody : RE :=
  .seq (reRepN isDigitCh 2) (.seq (.cls clsDateSep)
    (.seq (reRepN isDigitCh 2) (.seq (.cls clsDateSep) (reRepN isDigitCh 4))))

/-- Body (\d{10}|\d{12}) of the tax-id patterns (ordered alternation). -/
def innBody : RE := .alt (reRepN isDigitCh 10) (reRepN isDigitCh 12)

namespace DataExtractor

/-! Embedding of src/models/data_extractor.py (class DataExtractor). -/

def invoice_number_re : RE :=
  .seq (reAlts true ["Счет", "Invoice"])
    (.seq (.starCls clsSpNumHash) (.grp (rePlus clsInvNum)))

def date_re : RE :=
  .seq (.alt (reAlts false ["от", "from"]) .eps)
    (.seq (.starCls clsWs) (.grp dateBody))

def total_amount_re : RE :=
  .seq (reAlts true ["Итого", "Total"])
    (.seq (.starCls clsSpColon)
      (.seq (.grp amountBody)
        (.seq (.starCls clsWs) (reAlts true ["руб", "₽", "RUB"]))))

def supplier_name_re : RE :=
  .seq (reAlts true ["Поставщик", "Supplier"])
    (.seq (.starCls clsSpColon) (.grp (rePlus clsNotNL)))

def inn_re : RE :=
  .seq (reAlts true ["ИНН", "INN"]) (.seq (.starCls clsSpColon) (.grp innBody))

def address_re : RE :=
  .seq (reAlts true ["Адрес", "Address"])
    (.seq (.starCls clsSpColon) (.grp (rePlus clsNotNL)))

def payment_info_re : RE :=
  .seq (reAlts true ["Реквизиты", "Payment Info"])
    (.seq (.starCls clsSpColon) (.grp (rePlus clsNotNL)))

/-- The self.patterns dict (insertion order preserved). -/
def patternsList : List (String × RE) :=
  [("invoice_number", invoice_number_re), ("date", date_re),
   ("total_amount", total_amount_re), ("supplier_name", supplier_name_re),
   ("inn", inn_re), ("address", address_re), ("payment_info", payment_info_re)]

def patterns (k : String) : Option RE := patternsList.lookup k

/-! #### Python float() and percent-.2f formatting, for the decimal strings
this code produces.

The captured amount groups only ever contain ASCII digits, at most one dot
(after the comma/space rewriting), and an optional sign, so float() is
modelled on exactly that grammar; exotic float syntax (exponents, inf, nan,
underscores) never reaches these call sites.  A parsed value is kept as an
exact decimal mantissa/exponent pair; formatting with two decimals uses round
half to even on that exact value, which agrees with CPython on every value
whose decimal expansion needs at most two fractional digits (those are the
only values the theorems below evaluate; for longer expansions binary
representation error can make CPython differ). -/

structure PyDec where
  neg : Bool
  mant : Nat
  exp : Nat
deriving DecidableEq

/-- Unsigned decimal: digits, optionally a dot with further digits; at least
one digit overall. -/
def parseUDec (l : List Char) : Option (Nat × Nat) :=
  let intPart := l.takeWhile isDigitCh
  let rest := l.dropWhile isDigitCh
  match rest with
  | [] => if intPart.isEmpty then none else some (natOfDigits intPart, 0)
  | '.' :: fr =>
    if fr.all isDigitCh && !(intPart.isEmpty && fr.isEmpty) then
      some (natOfDigits intPart * 10 ^ fr.length + natOfDigits fr, fr.length)
    else none
  | _ => none

def pyFloatParse (l : List Char) : Option PyDec :=
  match pyStrip l with
  | '-' :: r => (parseUDec r).map (fun p => ⟨true, p.1, p.2⟩)
  | '+' :: r => (parseUDec r).map (fun p => ⟨false, p.1, p.2⟩)
  | r => (parseUDec r).map (fun p => ⟨false, p.1, p.2⟩)

/-- Percent-.2f of an exact decimal value (round half to even). -/
def fmt2f (d : PyDec) : List Char :=
  let m := d.mant * 100
  let den := 10 ^ d.exp
  let q := m / den
  let r := m % den
  let q2 :=
    if den < 2 * r then q + 1
    else if 2 * r < den then q
    else if q % 2 == 0 then q else q + 1
  (if d.neg then ['-'] else []) ++ natDecimal (q2 / 100) ++ '.' :: pad2 (q2 % 100)

/-! #### Date normalization: datetime.strptime(s,(percent)d.(percent)m.(percent)Y)
followed by strftime of the same format.

CPython strptime compiles the format to the regex
(3[01]|[12]\d|0[1-9]|[1-9]) literal-dot (1[0-2]|0[1-9]|[1-9]) literal-dot
\d\d\d\d anchored at the start, requires the whole string to be consumed, and
then validates the calendar date via the datetime constructor (ValueError on
day overflow or year 0).  The candidate lists below reproduce the ordered
alternation with backtracking into the rest of the format. -/

def dayCands (l : List Char) : List (Nat × List Char) :=
  (match l with
   | '3' :: c :: r => if c == '0' || c == '1' then [(30 + digitVal c, r)] else []
   | _ => []) ++
  (match l with
   | c :: d :: r =>
     if (c == '1' || c == '2') && isDigitCh d then [(digitVal c * 10 + digitVal d, r)] else []
   | _ => []) ++
  (match l with
   | '0' :: c :: r => if isDigitCh c && c != '0' then [(digitVal c, r)] else []
   | _ => []) ++
  (match l with
   | c :: r => if isDigitCh c && c != '0' then [(digitVal c, r)] else []
   | _ => [])

def monthCands (l : List Char) : List (Nat × List Char) :=
  (match l with
   | '1' :: c :: r =>
     if c == '0' || c == '1' || c == '2' then [(10 + digitVal c, r)] else []
   | _ => []) ++
  (match l with
   | '0' :: c :: r => if isDigitCh c && c != '0' then [(digitVal c, r)] else []
   | _ => []) ++
  (match l with
   | c :: r => if isDigitCh c && c != '0' then [(digitVal c, r)] else []
   | _ => [])

def year4 : List Char → Option (Nat × List Char)
  | a :: b :: c :: d :: r =>
    if isDigitCh a && isDigitCh b && isDigitCh c && isDigitCh d then
      some (natOfDigits [a, b, c, d], r)
    else none
  | _ => none

def tryFirst {α β : Type} (f : α × List Char → Option β) :
    List (α × List Char) → Option β
  | [] => none
  | x :: xs =>
    match f x with
    | some y => some y
    | none => tryFirst f xs

/-- The regex-and-consume-everything part of strptime for the fixed format. -/
def strptimeDMY (l : List Char) : Option (Nat × Nat × Nat) :=
  tryFirst
    (fun dp =>
      match dp.2 with
      | '.' :: r2 =>
        tryFirst
          (fun mp =>
            match mp.2 with
            | '.' :: r4 =>
              match year4 r4 with
              | some (y, []) => some (dp.1, mp.1, y)
              | _ => none
            | _ => none)
          (monthCands r2)
      | _ => none)
    (dayCands l)

def isLeap (y : Nat) : Bool := (y % 4 == 0 && y % 100 != 0) || y % 400 == 0

def daysInMonth (y m : Nat) : Nat :=
  if m == 2 then (if isLeap y then 29 else 28)
  else if m == 4 || m == 6 || m == 9 || m == 11 then 30
  else 31

/-- strptime including the datetime constructor validation. -/
def strptimeDate (l : List Char) : Option (Nat × Nat × Nat) :=
  match strptimeDMY l with
  | some (d, m, y) =>
    if 1 ≤ y && 1 ≤ d && d ≤ daysInMonth y m then some (d, m, y) else none
  | none => none

/-- strftime of the same format; glibc renders %Y without padding. -/
def strftimeDMY (d m y : Nat) : List Char :=
  pad2 d ++ '.' :: pad2 m ++ '.' :: natDecimal y

/-- DataExtractor._normalize_date. -/
def normalize_date (s : String) : String :=
  let u := replaceAll ['-'] ['.'] (replaceAll ['/'] ['.'] s.toList)
  match strptimeDate u with
  | some (d, m, y) => String.mk (strftimeDMY d m y)
  | none => String.mk u

/-- DataExtractor._normalize_amount. -/
def normalize_amount (s : String) : String :=
  let u := replaceAll [','] ['.'] (replaceAll [' '] [] s.toList)
  match pyFloatParse u with
  | some d => String.mk (fmt2f d)
  | none => String.mk u

/-- DataExtractor._normalize_inn: re.sub(\D, empty) keeps only digits; the
length check only logs a warning and never changes the value. -/
def normalize_inn (s : String) : String :=
  String.mk (s.toList.filter isDigitCh)

/-- Result dict of extract_data.  The confidence argument is opaque to the
code (it is stored untouched), hence the type parameter. -/
structure ExtractResult (α : Type) where
  value : Option String
  confidence : Option α
  raw_text : String
deriving DecidableEq

/-- DataExtractor.extract_data.  On a successful search the capture group is
always bound (every pattern contains its group on every path), so the
group-missing branch below is unreachable; it conservatively mirrors the
no-match outcome. -/
def extract_data {α : Type} (text : String) (region_type : String)
    (confidence : Option α) : ExtractResult α :=
  match patterns region_type with
  | none => ⟨none, confidence, text⟩
  | some re =>
    match reSearch re text.toList with
    | some (_, _, some (ga, gb)) =>
      let v := String.mk (pyStrip (slice text.toList ga gb))
      let v :=
        if region_type == "date" then normalize_date v
        else if region_type == "total_amount" then normalize_amount v
        else if region_type == "inn" then normalize_inn v
        else v
      ⟨some v, confidence, text⟩
    | _ => ⟨none, confidence, text⟩

/-- DataExtractor._parse_number. -/
def parse_number (l : List Char) : Option PyDec :=
  pyFloatParse (replaceAll [','] ['.'] (replaceAll [' '] [] l))

/-- One row dict produced by extract_table_data. -/
structure TableItem (α : Type) where
  name : String
  quantity : Option PyDec
  price : Option PyDec
  amount : Option PyDec
  confidence : Option α
  raw_text : String
deriving DecidableEq

def headerKeywords : List String :=
  ["наименование", "количество", "цена", "сумма"]

/-- re.split(\s with 2-or-more quantifier, l): split on each maximal run of
at least two whitespace characters (fuel as in pySplitF). -/
def splitWs2F : Nat → List Char → List Char → List (List Char)
  | _, acc, [] => [acc.reverse]
  | 0, acc, l => [acc.reverse ++ l]
  | fuel + 1, acc, c :: rest =>
    if clsWs c then
      if (rest.takeWhile clsWs).length + 1 ≥ 2 then
        acc.reverse :: splitWs2F fuel [] (rest.dropWhile clsWs)
      else splitWs2F fuel (c :: acc) rest
    else splitWs2F fuel (c :: acc) rest

def splitWs2 (l : List Char) : List (List Char) := splitWs2F l.length [] l

/-- DataExtractor.extract_table_data. -/
def extract_table_data {α : Type} (text : String) (confidence : Option α) :
    List (TableItem α) :=
  (text.toList.splitOn '\n').foldr
    (fun line acc =>
      if (pyStrip line).isEmpty ||
          headerKeywords.any (fun kw => containsSub kw.toList (line.map pyLowerCh)) then
        acc
      else
        let columns := splitWs2 (pyStrip line)
        if 4 ≤ columns.length then
          { name := String.mk (columns.headD [])
            quantity := parse_number ((columns.get? 1).getD [])
            price := parse_number ((columns.get? 2).getD [])
            amount := parse_number ((columns.get? 3).getD [])
            confidence := confidence
            raw_text := String.mk line } :: acc
        else acc)
    []

end DataExtractor

namespace TableParser

/-! Embedding of src/models/table_parser.py (class TableParser).

parse_table first crops the image and runs OpenCV morphology to obtain the
row y-coordinates and column x-coordinates (_detect_table_structure).  That
image analysis is not expressible in this embedding, so the two coordinate
lists are taken as parameters: parse_table below is the exact remainder of
the source once rows and cols are in hand.  A thrown ValueError (float() on a
captured group that still contains a space) is modelled by Except. -/

open DataExtractor (PyDec pyFloatParse)

def amount_pattern : RE := .grp amountBody

def price_pattern : RE :=
  .seq (.grp amountBody) (.seq (.starCls clsWs) (reLit false "руб"))

structure TPItem where
  name : String
  quantity : Option PyDec
  price : Option PyDec
  amount : Option PyDec
deriving DecidableEq

/-- float(group(1).replace(comma, dot)): raises ValueError when the captured
text is not float syntax (e.g. contains an interior space). -/
def floatOfGroup (g : List Char) : Except Unit PyDec :=
  match pyFloatParse (replaceAll [','] ['.'] g) with
  | some d => .ok d
  | none => .error ()

/-- Search a pattern and convert group 1; no match gives none. -/
def numFromSearch (re : RE) (l : List Char) : Except Unit (Option PyDec) :=
  match reSearch re l with
  | some (_, _, some (a, b)) => (floatOfGroup (slice l a b)).map some
  | _ => .ok none

/-- TableParser._parse_table_row: slices the text line at the detected column
x-positions (character indices in the source), keeps rows of at least three
parts. -/
def parse_table_row (text : List Char) (col_positions : List Nat) :
    Except Unit (Option TPItem) :=
  let parts := (col_positions.zip col_positions.tail).map
    (fun ab => pyStrip (slice text ab.1 ab.2))
  if parts.length < 3 then .ok none
  else do
    let quantity ← numFromSearch amount_pattern ((parts.get? 1).getD [])
    let price ← numFromSearch price_pattern ((parts.get? 2).getD [])
    let amount ← numFromSearch amount_pattern (parts.getLastD [])
    .ok (some { name := String.mk (parts.headD []),
                quantity := quantity, price := price, amount := amount })

/-- TableParser.parse_table on the detected structure: the loop keeps line i
exactly when i is less than (number of detected rows) minus one, so it keeps
the first lines (including a header at line 0) and drops the tail. -/
def parse_table (rows cols : List Nat) (ocr_text : String) :
    Except Unit (List TPItem) :=
  go (ocr_text.toList.splitOn '\n'|>.take (rows.length - 1))
where
  go : List (List Char) → Except Unit (List TPItem)
    | [] => .ok []
    | l :: ls => do
      let it ← parse_table_row l cols
      let rest ← go ls
      match it with
      | some x => .ok (x :: rest)
      | none => .ok rest

end TableParser

namespace OCR

/-! Embedding of OCRProcessor._postprocess_text (src/models/ocr.py).
The three patterns here are compiled without re.IGNORECASE. -/

def date_pattern : RE := dateBody

def amount_pattern : RE :=
  .seq (.grp amountBody) (.seq (.starCls clsWs) (reAlts false ["руб", "₽", "RUB"]))

def inn_pattern : RE :=
  .seq (reAlts false ["ИНН", "INN"]) (.seq (.starCls clsSpColon) (.grp innBody))

/-- The two blunt character substitutions text.replace applied after the
whitespace normalization. -/
def subst01 (l : List Char) : List Char :=
  replaceAll ['1'] ['I'] (replaceAll ['0'] ['О'] l)

def postprocess_text (s : String) : String :=
  let t0 := wsCollapse s.toList
  let t1 := subst01 t0
  let t2 :=
    match reSearch date_pattern t1 with
    | some (a, b, _) =>
      let d := slice t1 a b
      let d2 := replaceAll ['-'] ['.'] (replaceAll ['/'] ['.'] d)
      replaceAll d d2 t1
    | none => t1
  let t3 :=
    match reSearch amount_pattern t2 with
    | some (a, b, some (ga, gb)) =>
      let amt := replaceAll [','] ['.'] (replaceAll [' '] [] (slice t2 ga gb))
      replaceAll (slice t2 a b) (amt ++ (" руб.".toList)) t2
    | _ => t2
  let t4 :=
    match reSearch inn_pattern t3 with
    | some (a, b, some (ga, gb)) =>
      replaceAll (slice t3 a b) (("ИНН: ".toList) ++ slice t3 ga gb) t3
    | _ => t3
  String.mk t4

end OCR

namespace Pipeline

/-! Embedding of InvoiceProcessor.extract_structured_data
(src/models/invoice_processor.py).  Each entry of the raw-results dict built
by process_invoice carries a text field and, for items_table only, possibly a
parsed_items list; parsedItems = none models the parsed_items key being
absent. -/

structure RegionEntry where
  text : String
  parsedItems : Option (List TableParser.TPItem) := none
deriving DecidableEq

structure Supplier where
  name : Option String
  inn : Option String
  address : Option String
deriving DecidableEq

structure StructuredData where
  invoice_number : Option String
  date : Option String
  total_amount : Option String
  supplier : Supplier
  items : List TableParser.TPItem
  payment_info : Option String
deriving DecidableEq

/-- InvoiceProcessor.extract_structured_data: starts from the all-null
skeleton and copies the text of each present region verbatim, in source
order. -/
def extract_structured_data (results : List (String × RegionEntry)) :
    StructuredData :=
  let sd : StructuredData :=
    { invoice_number := none, date := none, total_amount := none,
      supplier := { name := none, inn := none, address := none },
      items := [], payment_info := none }
  let sd :=
    match results.lookup "invoice_number" with
    | some e => { sd with invoice_number := some e.text }
    | none => sd
  let sd :=
    match results.lookup "date" with
    | some e => { sd with date := some e.text }
    | none => sd
  let sd :=
    match results.lookup "total_amount" with
    | some e => { sd with total_amount := some e.text }
    | none => sd
  let sd :=
    match results.lookup "supplier_name" with
    | some e => { sd with supplier := { sd.supplier with name := some e.text } }
    | none => sd
  let sd :=
    match results.lookup "inn" with
    | some e => { sd with supplier := { sd.supplier with inn := some e.text } }
    | none => sd
  let sd :=
    match results.lookup "address" with
    | some e => { sd with supplier := { sd.supplier with address := some e.text } }
    | none => sd
  let sd :=
    match results.lookup "payment_info" with
    | some e => { sd with payment_info := some e.text }
    | none => sd
  let sd :=
    match results.lookup "items_table" with
    | some e =>
      match e.parsedItems with
      | some items => { sd with items := items }
      | none => sd
    | none => sd
  sd

end Pipeline

namespace Queue

/-! Embedding of src/models/queue_manager.py (class QueueManager).

State model:
  heap    - the Python object heap: object reference to Task record; the
            dict self.tasks and the list self.queue both hold references,
            so an in-place mutation of a Task is a single heap update.
  tasks   - self.tasks (insertion-ordered dict: task id to reference).
  queue   - self.queue (list of references; append-only except clear_queue).
  root    - the files directly inside queue_dir (task json files and
            stats.json); glob of star-dot-json in _load_state sees exactly
            these.
  pendingD/processingD/completedD/failedD - the file names present in the
            four subdirectories (contents are never read back, since
            _load_state globs only the queue_dir root).
Timestamps: every call that evaluates time.time() takes the current time as
the parameter now. -/

/-- A Python value as far as json serialization is concerned.  A TaskStatus
member is an Enum value: json.dump raises TypeError on it. -/
inductive PyVal where
  | str : String → PyVal
  | int : Nat → PyVal
  | enumV : String → PyVal
  | noneV : PyVal
  | dict : List (String × PyVal) → PyVal

mutual

def jsonSerializable : PyVal → Bool
  | .dict fs => jsonSerializableL fs
  | .enumV _ => false
  | _ => true

def jsonSerializableL : List (String × PyVal) → Bool
  | [] => true
  | kv :: rest => jsonSerializable kv.2 && jsonSerializableL rest

end

inductive TaskStatus where
  | pending
  | processing
  | completed
  | failed
deriving DecidableEq

def statusValue : TaskStatus → String
  | .pending => "pending"
  | .processing => "processing"
  | .completed => "completed"
  | .failed => "failed"

/-- TaskStatus(value) — raises ValueError (modelled as none) on an unknown
value. -/
def statusOfValue (s : String) : Option TaskStatus :=
  if s == "pending" then some .pending
  else if s == "processing" then some .processing
  else if s == "completed" then some .completed
  else if s == "failed" then some .failed
  else none

/-- The Task dataclass.  Its declared fields are id, type, data, status,
created_at, updated_at, result, error — there is no retries field.  The
retries component below models the would-be dynamic attribute: none means
the attribute does not exist on the object (reading it raises
AttributeError).  No code path in the source ever sets it, and
dataclasses.asdict never includes it. -/
structure Task where
  id : String
  type : String
  data : List (String × String)
  status : TaskStatus
  created_at : Nat
  updated_at : Nat
  result : Option (List (String × String)) := none
  error : Option String := none
  retries : Option Nat := none
deriving DecidableEq

def strDict (d : List (String × String)) : PyVal :=
  .dict (d.map (fun kv => (kv.1, .str kv.2)))

/-- dataclasses.asdict(task): only the declared dataclass fields appear; the
status field stays an Enum member, which is what makes the dict
unserializable. -/
def asdictTask (t : Task) : PyVal :=
  .dict [("id", .str t.id), ("type", .str t.type), ("data", strDict t.data),
         ("status", .enumV (statusValue t.status)),
         ("created_at", .int t.created_at), ("updated_at", .int t.updated_at),
         ("result", match t.result with | some r => strDict r | none => .noneV),
         ("error", match t.error with | some e => .str e | none => .noneV)]

/-- A file in the store: either valid json content, or the partial text left
behind when json.dump raised TypeError midway (invalid json; json.load on it
raises and the record is skipped). -/
inductive FileVal where
  | good : PyVal → FileVal
  | partialJson : FileVal

abbrev Store := List (String × FileVal)

/-- The file _save_task writes for a task: json.dump(asdict(task)) raises
TypeError on the status Enum member, the exception is caught and logged, and
the opened file keeps only the partial prefix already streamed — invalid
json. -/
def taskFileVal (t : Task) : FileVal :=
  if jsonSerializable (asdictTask t) then .good (asdictTask t) else .partialJson

structure Stats where
  total : Nat
  completed : Nat
  failed : Nat
  retries : Nat
deriving DecidableEq

def initStats : Stats := ⟨0, 0, 0, 0⟩

def statsToPyVal (s : Stats) : PyVal :=
  .dict [("total", .int s.total), ("completed", .int s.completed),
         ("failed", .int s.failed), ("retries", .int s.retries)]

def statsFromPyVal : PyVal → Option Stats
  | .dict fs =>
    match fs.lookup "total", fs.lookup "completed",
        fs.lookup "failed", fs.lookup "retries" with
    | some (.int a), some (.int b), some (.int c), some (.int d) =>
      some ⟨a, b, c, d⟩
    | _, _, _, _ => none
  | _ => none

/-- Python dict assignment d[k] = v: overwrite in place if the key exists,
else append. -/
def assocSet {ν : Type} : List (String × ν) → String → ν → List (String × ν)
  | [], k, v => [(k, v)]
  | (k2, v2) :: rest, k, v =>
    if k2 == k then (k, v) :: rest else (k2, v2) :: assocSet rest k v

/-- Python del d[k] / file unlink: drop the (unique) binding if present. -/
def assocRemove {ν : Type} : List (String × ν) → String → List (String × ν)
  | [], _ => []
  | (k2, v2) :: rest, k =>
    if k2 == k then rest else (k2, v2) :: assocRemove rest k

def heapSet : List (Nat × Task) → Nat → Task → List (Nat × Task)
  | [], r, t => [(r, t)]
  | (r2, t2) :: rest, r, t =>
    if r2 == r then (r, t) :: rest else (r2, t2) :: heapSet rest r t

/-- A set-like list of file names in one of the four subdirectories. -/
def addName (l : List String) (n : String) : List String :=
  if l.contains n then l else l ++ [n]

def removeName (l : List String) (n : String) : List String :=
  l.filter (fun x => x != n)

structure QMState where
  maxSize : Nat
  maxRetries : Nat
  nextRef : Nat := 0
  heap : List (Nat × Task) := []
  tasks : List (String × Nat) := []
  queue : List Nat := []
  stats : Stats := initStats
  root : Store := []
  pendingD : List String := []
  processingD : List String := []
  completedD : List String := []
  failedD : List String := []

def taskOf (σ : QMState) (id : String) : Option Task :=
  (σ.tasks.lookup id).bind (fun r => σ.heap.lookup r)

def statusOf (σ : QMState) (id : String) : Option TaskStatus :=
  (taskOf σ id).map (fun t => t.status)

/-- QueueManager._save_task. -/
def saveTask (root : Store) (t : Task) : Store :=
  assocSet root (t.id ++ ".json") (taskFileVal t)

/-- QueueManager._save_state: rewrite every task file (dict order) and then
stats.json. -/
def saveState (σ : QMState) : QMState :=
  let root := σ.tasks.foldl
    (fun rt kv =>
      match σ.heap.lookup kv.2 with
      | some t => saveTask rt t
      | none => rt)
    σ.root
  { σ with root := assocSet root "stats.json" (.good (statsToPyVal σ.stats)) }

/-- QueueManager.add_task. -/
def addTask (σ : QMState) (now : Nat) (task_type : String)
    (data : List (String × String)) : Option String × QMState :=
  if σ.maxSize ≤ σ.queue.length then (none, σ)
  else
    let id := task_type ++ "_" ++ Nat.repr now ++ "_" ++ Nat.repr σ.tasks.length
    let t : Task :=
      { id := id, type := task_type, data := data, status := .pending,
        created_at := now, updated_at := now }
    let r := σ.nextRef
    let σ := { σ with nextRef := r + 1, heap := σ.heap ++ [(r, t)],
                      tasks := assocSet σ.tasks id r }
    let σ := { σ with root := saveTask σ.root t }
    let σ := { σ with queue := σ.queue ++ [r] }
    let σ := { σ with stats := { σ.stats with total := σ.stats.total + 1 } }
    (some id, saveState σ)

/-- QueueManager.complete_task.  The Task object is mutated in place before
shutil.move; when the source file processing/id.json does not exist the move
raises, the except block returns False, and the in-memory mutation survives
while the stats update and _save_state are skipped. -/
def completeTask (σ : QMState) (now : Nat) (id : String)
    (result : List (String × String)) : Bool × QMState :=
  match σ.tasks.lookup id with
  | none => (false, σ)
  | some r =>
    match σ.heap.lookup r with
    | none => (false, σ)
    | some t =>
      let t2 := { t with status := .completed, updated_at := now,
                         result := some result }
      let σ2 := { σ with heap := heapSet σ.heap r t2 }
      let fn := id ++ ".json"
      if σ2.processingD.contains fn then
        let σ3 := { σ2 with processingD := removeName σ2.processingD fn,
                            completedD := addName σ2.completedD fn }
        let σ4 := { σ3 with stats := { σ3.stats with
                              completed := σ3.stats.completed + 1 } }
        (true, saveState σ4)
      else (false, σ2)

/-- QueueManager.fail_task.  The very first statement reads task.retries; the
dataclass has no such field and nothing ever sets the attribute, so on every
reachable state this raises AttributeError, which the blanket except turns
into a plain False with no state change.  The some branch models the code as
written for a hypothetical object that did carry the attribute. -/
def failTask (σ : QMState) (now : Nat) (id : String) (error : String) :
    Bool × QMState :=
  match σ.tasks.lookup id with
  | none => (false, σ)
  | some r =>
    match σ.heap.lookup r with
    | none => (false, σ)
    | some t =>
      match t.retries with
      | none => (false, σ)
      | some r0 =>
        let r1 := if r0 != 0 then r0 + 1 else 1
        let fn := id ++ ".json"
        if σ.maxRetries ≤ r1 then
          let t2 := { t with retries := some r1, error := some error,
                             status := .failed, updated_at := now }
          let σ2 := { σ with heap := heapSet σ.heap r t2 }
          if σ2.processingD.contains fn then
            let σ3 := { σ2 with processingD := removeName σ2.processingD fn,
                                failedD := addName σ2.failedD fn }
            let σ4 := { σ3 with stats := { σ3.stats with
                                  failed := σ3.stats.failed + 1 } }
            (true, saveState σ4)
          else (false, σ2)
        else
          let t2 := { t with retries := some r1, error := some error,
                             status := .pending }
          let σ2 := { σ with heap := heapSet σ.heap r t2 }
          if σ2.processingD.contains fn then
            let σ3 := { σ2 with processingD := removeName σ2.processingD fn,
                                pendingD := addName σ2.pendingD fn }
            let σ4 := { σ3 with stats := { σ3.stats with
                                  retries := σ3.stats.retries + 1 } }
            (true, saveState σ4)
          else (false, σ2)

/-- QueueManager.update_task: sets the given status unconditionally (no
check of the current status), refreshes updated_at, overwrites result and
error with the given arguments, and saves the single task file. -/
def updateTask (σ : QMState) (now : Nat) (id : String) (status : TaskStatus)
    (result : Option (List (String × String))) (error : Option String) :
    Bool × QMState :=
  match σ.tasks.lookup id with
  | none => (false, σ)
  | some r =>
    match σ.heap.lookup r with
    | none => (false, σ)
    | some t =>
      let t2 := { t with status := status, updated_at := now,
                         result := result, error := error }
      let σ2 := { σ with heap := heapSet σ.heap r t2 }
      (true, { σ2 with root := saveTask σ2.root t2 })

/-- QueueManager.remove_task: deletes the root file (if present) and the
dict entry.  The heap object and any queue reference survive, as in Python.
-/
def removeTask (σ : QMState) (id : String) : Bool × QMState :=
  match σ.tasks.lookup id with
  | none => (false, σ)
  | some _ =>
    (true, { σ with root := assocRemove σ.root (id ++ ".json"),
                    tasks := assocRemove σ.tasks id })

/-- QueueManager.cleanup_tasks: collect the ids of terminal tasks older than
max_age, then remove them one by one. -/
def cleanupTasks (σ : QMState) (now : Nat) (max_age : Nat) : Nat × QMState :=
  let toRemove := (σ.tasks.filter
    (fun kv =>
      match σ.heap.lookup kv.2 with
      | some t =>
        (t.status == .completed || t.status == .failed) &&
          ((now : Int) - (t.updated_at : Int) > (max_age : Int))
      | none => false)).map (fun kv => kv.1)
  toRemove.foldl
    (fun acc id =>
      let r := removeTask acc.2 id
      ((if r.1 then acc.1 + 1 else acc.1), r.2))
    (0, σ)

/-- QueueManager.clear_queue: empties the four subdirectories and resets
self.queue and self.stats; self.tasks (and the root task files) survive. -/
def clearQueue (σ : QMState) : Bool × QMState :=
  let σ2 := { σ with pendingD := [], processingD := [], completedD := [],
                     failedD := [], queue := [], stats := initStats }
  (true, saveState σ2)

def getStr (fs : List (String × PyVal)) (k : String) : Option String :=
  match fs.lookup k with
  | some (.str s) => some s
  | _ => none

def getNat (fs : List (String × PyVal)) (k : String) : Option Nat :=
  match fs.lookup k with
  | some (.int n) => some n
  | _ => none

def getStrDict (v : PyVal) : Option (List (String × String)) :=
  match v with
  | .dict fs =>
    fs.foldr
      (fun kv acc =>
        match kv.2, acc with
        | .str s, some l => some ((kv.1, s) :: l)
        | _, _ => none)
      (some [])
  | _ => none

/-- The Task(...) reconstruction in _load_state; any missing key or
unexpected shape raises there and the file is skipped.  Note the constructor
call passes no retries (there is no such field), so a reloaded task carries
no retries attribute either. -/
def taskFromPyVal (v : PyVal) : Option Task :=
  match v with
  | .dict fs =>
    match getStr fs "id", getStr fs "type",
        (fs.lookup "data").bind getStrDict,
        (getStr fs "status").bind statusOfValue,
        getNat fs "created_at", getNat fs "updated_at" with
    | some id, some ty, some data, some st, some ca, some ua =>
      some { id := id, type := ty, data := data, status := st,
             created_at := ca, updated_at := ua,
             result := (fs.lookup "result").bind getStrDict,
             error := (fs.lookup "error").bind (fun e =>
               match e with | .str s => some s | _ => none) }
    | _, _, _, _, _, _ => none
  | _ => none

/-- QueueManager.__init__ plus _load_state on an existing store: self.queue
starts empty and is not rebuilt; self.tasks is rebuilt from whichever root
json files parse as tasks (partial files raise in json.load and are skipped;
stats.json lacks the id key and is skipped); stats.json, when readable,
replaces the stats wholesale. -/
def initQM (maxSize maxRetries : Nat) (root : Store)
    (pendingD processingD completedD failedD : List String) : QMState :=
  let loaded := root.foldl
    (fun (acc : List (String × Nat) × List (Nat × Task) × Nat) nf =>
      match nf.2 with
      | .good v =>
        match taskFromPyVal v with
        | some t => (assocSet acc.1 t.id acc.2.2, acc.2.1 ++ [(acc.2.2, t)],
                     acc.2.2 + 1)
        | none => acc
      | .partialJson => acc)
    ([], [], 0)
  let stats :=
    match root.lookup "stats.json" with
    | some (.good v) => (statsFromPyVal v).getD initStats
    | _ => initStats
  { maxSize := maxSize, maxRetries := maxRetries, nextRef := loaded.2.2,
    heap := loaded.2.1, tasks := loaded.1, queue := [], stats := stats,
    root := root, pendingD := pendingD, processingD := processingD,
    completedD := completedD, failedD := failedD }

/-- Fresh queue on an empty directory. -/
def freshQM (maxSize maxRetries : Nat) : QMState :=
  initQM maxSize maxRetries [] [] [] [] []

/-- Number of live (pending or processing) tasks reachable through
self.tasks. -/
def liveCount (σ : QMState) : Nat :=
  (σ.tasks.filter
    (fun kv =>
      match σ.heap.lookup kv.2 with
      | some t => t.status == .pending || t.status == .processing
      | none => false)).length

/-- True when the stored file is the invalid partial text left behind by a
json.dump TypeError. -/
def isPartialFile (st : Store) (n : String) : Bool :=
  match st.lookup n with
  | some .partialJson => true
  | _ => false

end Queue

/-! ## Shared lemmas about the queue state operations. -/

namespace Queue

theorem lookup_heapSet (h : List (Nat × Task)) (r : Nat) (t : Task) :
    (heapSet h r t).lookup r = some t := by
  induction h with
  | nil => simp [heapSet, List.lookup]
  | cons p rest ih =>
    by_cases hp : p.1 == r
    · obtain ⟨p1, p2⟩ := p
      simp only [heapSet]
      simp only at hp
      simp [hp, List.lookup]
    · obtain ⟨p1, p2⟩ := p
      simp only [heapSet]
      simp only at hp
      simp only [hp]
      simp only [List.lookup]
      have : (r == p1) = false := by
        simp only [beq_iff_eq] at hp
        simp only [beq_eq_false_iff_ne]
        exact fun hk => hp hk.symm
      simp [this, ih]

theorem lookup_assocSet {ν : Type} (l : List (String × ν)) (k : String) (v : ν) :
    (assocSet l k v).lookup k = some v := by
  induction l with
  | nil => simp [assocSet, List.lookup]
  | cons p rest ih =>
    by_cases hp : p.1 == k
    · obtain ⟨p1, p2⟩ := p
      simp only [assocSet]
      simp only at hp
      simp [hp, List.lookup]
    · obtain ⟨p1, p2⟩ := p
      simp only [assocSet]
      simp only at hp
      simp only [hp]
      simp only [List.lookup]
      have : (k == p1) = false := by
        simp only [beq_eq_false_iff_ne]
        exact fun hk => hp (by simp [hk])
      simp [this, ih]

theorem lookup_append_fresh (h : List (Nat × Task)) (r : Nat) (t : Task)
    (hf : h.lookup r = none) : (h ++ [(r, t)]).lookup r = some t := by
  induction h with
  | nil => simp [List.lookup]
  | cons p rest ih =>
    obtain ⟨p1, p2⟩ := p
    simp only [List.lookup] at hf ⊢
    cases hr : (r == p1) with
    | true => simp [hr] at hf
    | false =>
      simp only [hr] at hf ⊢
      exact ih hf

theorem statusOf_saveState (σ : QMState) (id : String) :
    statusOf (saveState σ) id = statusOf σ id := rfl

end Queue

/-! ## Claims. -/

open Queue in
/-- Claim C1 (code_bug): the claim says fail_task increments retries and
leaves the task Failed after three failures with max_retries = 3.  In the
code the Task dataclass declares no retries field, so the first statement of
fail_task (reading task.retries) raises AttributeError; the blanket except
catches it and returns False with the state untouched.  This theorem
evaluates the claimed scenario: add_task then three fail_task calls on the
returned id leave the task Pending, with no retries attribute, every
fail_task call returning False and changing nothing. -/
theorem C1_fail_task_never_increments_retries :
    (addTask (freshQM 1000 3) 100 "invoice" []).1 = some "invoice_100_0" ∧
    failTask (addTask (freshQM 1000 3) 100 "invoice" []).2 101 "invoice_100_0" "e1"
      = (false, (addTask (freshQM 1000 3) 100 "invoice" []).2) ∧
    failTask (failTask (addTask (freshQM 1000 3) 100 "invoice" []).2 101
        "invoice_100_0" "e1").2 102 "invoice_100_0" "e2"
      = (false, (addTask (freshQM 1000 3) 100 "invoice" []).2) ∧
    failTask (failTask (failTask (addTask (freshQM 1000 3) 100 "invoice" []).2 101
        "invoice_100_0" "e1").2 102 "invoice_100_0" "e2").2 103 "invoice_100_0" "e3"
      = (false, (addTask (freshQM 1000 3) 100 "invoice" []).2) ∧
    statusOf (failTask (failTask (failTask (addTask (freshQM 1000 3) 100 "invoice" []).2
        101 "invoice_100_0" "e1").2 102 "invoice_100_0" "e2").2 103
        "invoice_100_0" "e3").2 "invoice_100_0" = some .pending ∧
    (taskOf (failTask (failTask (failTask (addTask (freshQM 1000 3) 100 "invoice" []).2
        101 "invoice_100_0" "e1").2 102 "invoice_100_0" "e2").2 103
        "invoice_100_0" "e3").2 "invoice_100_0").bind (fun t => t.retries) = none :=
  ⟨rfl, rfl, rfl, rfl, rfl, rfl⟩

open Queue in
/-- Claim C2 counterexample: a task brought to the terminal status Completed
has its status changed back to Pending by a subsequent update_task call, so
terminal statuses are not preserved by every queue operation. -/
theorem C2_terminal_status_changes_cex :
    statusOf (updateTask (addTask (freshQM 1000 3) 100 "invoice" []).2 200
        "invoice_100_0" .completed none none).2 "invoice_100_0"
      = some .completed ∧
    statusOf (updateTask (updateTask (addTask (freshQM 1000 3) 100 "invoice" []).2 200
        "invoice_100_0" .completed none none).2 300
        "invoice_100_0" .pending none none).2 "invoice_100_0"
      = some .pending :=
  ⟨rfl, rfl⟩

open Queue in
/-- Claim C2 amended: terminal statuses are not protected.  For any task
present in the queue (whatever its current status, including Completed and
Failed), update_task unconditionally sets the status it is given, and
complete_task unconditionally sets Completed (mutating the in-memory object
even when its file move then fails). -/
theorem C2_terminal_status_not_preserved (σ : QMState) (now now2 : Nat)
    (id : String) (st : TaskStatus) (res : Option (List (String × String)))
    (err : Option String) (result : List (String × String)) (s : TaskStatus)
    (h : statusOf σ id = some s) :
    statusOf (updateTask σ now id st res err).2 id = some st ∧
    statusOf (completeTask σ now2 id result).2 id = some .completed := by
  unfold statusOf taskOf at h
  cases hl : σ.tasks.lookup id with
  | none => rw [hl] at h; simp at h
  | some r =>
    rw [hl] at h
    simp only [Option.some_bind] at h
    cases hh : σ.heap.lookup r with
    | none => rw [hh] at h; simp at h
    | some t =>
      constructor
      · simp only [updateTask, hl, hh]
        simp [statusOf, taskOf, hl, lookup_heapSet]
      · simp only [completeTask, hl, hh]
        split
        · simp [statusOf, taskOf, saveState, hl, lookup_heapSet]
        · simp [statusOf, taskOf, hl, lookup_heapSet]

open Queue in
/-- Witness for C2_terminal_status_not_preserved at a concrete state. -/
theorem C2_terminal_status_not_preserved_witness :
    statusOf (updateTask (addTask (freshQM 1000 3) 100 "invoice" []).2 200
        "invoice_100_0" .pending none none).2 "invoice_100_0" = some .pending ∧
    statusOf (completeTask (addTask (freshQM 1000 3) 100 "invoice" []).2 201
        "invoice_100_0" []).2 "invoice_100_0" = some .completed :=
  C2_terminal_status_not_preserved
    (addTask (freshQM 1000 3) 100 "invoice" []).2 200 201 "invoice_100_0"
    .pending none none [] .pending rfl

open Queue in
/-- Claim C3 (code_bug): the claim says _save_task followed by a fresh
_load_state reconstructs the same task.  In the code
json.dump(asdict(task)) raises TypeError because the status field is a
TaskStatus Enum member; _save_task catches and logs it, leaving a truncated,
unparseable file.  A restart therefore reconstructs no task at all: the
persisted store is not a faithful source of truth.  This theorem evaluates
that roundtrip for a freshly added task. -/
theorem C3_persist_reload_loses_task :
    taskOf (addTask (freshQM 1000 3) 100 "invoice" [("path", "a.jpg")]).2
        "invoice_100_0"
      = some { id := "invoice_100_0", type := "invoice",
               data := [("path", "a.jpg")], status := .pending,
               created_at := 100, updated_at := 100 } ∧
    isPartialFile (addTask (freshQM 1000 3) 100 "invoice"
        [("path", "a.jpg")]).2.root "invoice_100_0.json" = true ∧
    (initQM 1000 3
        (addTask (freshQM 1000 3) 100 "invoice" [("path", "a.jpg")]).2.root
        [] [] [] []).tasks = [] ∧
    taskOf (initQM 1000 3
        (addTask (freshQM 1000 3) 100 "invoice" [("path", "a.jpg")]).2.root
        [] [] [] []) "invoice_100_0" = none :=
  ⟨rfl, rfl, rfl, rfl⟩

open Queue in
/-- Claim C4 counterexample: a queue of max_size 1 holding one Completed
task (zero live tasks, strictly below max_size) still rejects add_task,
because the size check uses len(self.queue), a list that retains every task
ever added regardless of status. -/
theorem C4_add_task_rejects_below_live_capacity_cex :
    liveCount (updateTask (addTask (freshQM 1 3) 100 "a" []).2 101 "a_100_0"
        .completed none none).2 = 0 ∧
    (updateTask (addTask (freshQM 1 3) 100 "a" []).2 101 "a_100_0"
        .completed none none).2.maxSize = 1 ∧
    addTask (updateTask (addTask (freshQM 1 3) 100 "a" []).2 101 "a_100_0"
        .completed none none).2 102 "b" []
      = (none, (updateTask (addTask (freshQM 1 3) 100 "a" []).2 101 "a_100_0"
          .completed none none).2) :=
  ⟨rfl, rfl, rfl⟩

namespace Queue

/-- Structural invariant of queue states produced without clear_queue: the
task-table references are distinct and every referenced object is also in
the queue list. -/
def QInv (σ : QMState) : Prop :=
  (σ.tasks.map Prod.snd).Nodup ∧ ∀ kv ∈ σ.tasks, kv.2 ∈ σ.queue

instance (σ : QMState) : Decidable (QInv σ) := by
  unfold QInv
  infer_instance

end Queue

open Queue in
/-- Claim C4 amended: add_task rejects (returning null and leaving the state
untouched, so stats total is unchanged) exactly when len(self.queue) has
reached max_size, where self.queue retains every task added since
initialization or clear_queue, including completed, failed and removed
tasks; on acceptance it returns the id built from the type, the timestamp
and the current task-table size, the new task has status Pending, and total
increments.  Since every live task is referenced by the queue list (the
QInv invariant, which holds in any run without clear_queue), rejection still
occurs whenever the live count has reached max_size, but — unlike the
original claim — it can also occur with the live count strictly below
max_size. -/
theorem C4_add_task_queue_length_policy (σ : QMState) (now : Nat)
    (ty : String) (data : List (String × String)) :
    (σ.maxSize ≤ σ.queue.length → addTask σ now ty data = (none, σ)) ∧
    (σ.queue.length < σ.maxSize → σ.heap.lookup σ.nextRef = none →
      (addTask σ now ty data).1
          = some (ty ++ "_" ++ Nat.repr now ++ "_" ++ Nat.repr σ.tasks.length) ∧
      statusOf (addTask σ now ty data).2
          (ty ++ "_" ++ Nat.repr now ++ "_" ++ Nat.repr σ.tasks.length)
          = some .pending ∧
      (addTask σ now ty data).2.stats.total = σ.stats.total + 1) ∧
    (QInv σ → liveCount σ ≤ σ.queue.length) := by
  refine ⟨?_, ?_, ?_⟩
  · intro h
    simp [addTask, h]
  · intro h hf
    have hcond : ¬(σ.maxSize ≤ σ.queue.length) := by omega
    refine ⟨?_, ?_, ?_⟩
    · simp [addTask, hcond]
    · simp [addTask, hcond, statusOf, taskOf, saveState, lookup_assocSet,
        lookup_append_fresh _ _ _ hf]
    · simp [addTask, hcond, saveState]
  · intro hinv
    unfold liveCount
    have hs : List.Sublist
        ((σ.tasks.filter (fun kv =>
          match σ.heap.lookup kv.2 with
          | some t => t.status == .pending || t.status == .processing
          | none => false)).map Prod.snd)
        (σ.tasks.map Prod.snd) :=
      (List.filter_sublist σ.tasks).map Prod.snd
    have h1 := hs.nodup hinv.1
    have h2 : ∀ x ∈ (σ.tasks.filter (fun kv =>
        match σ.heap.lookup kv.2 with
        | some t => t.status == .pending || t.status == .processing
        | none => false)).map Prod.snd, x ∈ σ.queue := by
      intro x hx
      obtain ⟨kv, hkv, rfl⟩ := List.mem_map.mp hx
      exact hinv.2 kv (List.mem_of_mem_filter hkv)
    have hc1 := List.toFinset_card_of_nodup h1
    have hc2 : ((σ.tasks.filter (fun kv =>
        match σ.heap.lookup kv.2 with
        | some t => t.status == .pending || t.status == .processing
        | none => false)).map Prod.snd).toFinset ⊆ σ.queue.toFinset := by
      intro x hx
      simp only [List.mem_toFinset] at hx ⊢
      exact h2 x hx
    have hc3 := Finset.card_le_card hc2
    have hc4 := σ.queue.toFinset_card_le
    have hlen := List.length_map (σ.tasks.filter (fun kv =>
        match σ.heap.lookup kv.2 with
        | some t => t.status == .pending || t.status == .processing
        | none => false)) Prod.snd
    omega

open Queue in
/-- Witness for C4_add_task_queue_length_policy: the rejection branch at a
full queue, the acceptance branch on a fresh queue, and the live-count bound
at a populated state. -/
theorem C4_add_task_queue_length_policy_witness :
    addTask (addTask (freshQM 1 3) 100 "a" []).2 102 "c" []
        = (none, (addTask (freshQM 1 3) 100 "a" []).2) ∧
    ((addTask (freshQM 1000 3) 100 "invoice" []).1 = some "invoice_100_0" ∧
      statusOf (addTask (freshQM 1000 3) 100 "invoice" []).2 "invoice_100_0"
        = some .pending ∧
      (addTask (freshQM 1000 3) 100 "invoice" []).2.stats.total
        = (freshQM 1000 3).stats.total + 1) ∧
    liveCount (addTask (freshQM 1 3) 100 "a" []).2
      ≤ (addTask (freshQM 1 3) 100 "a" []).2.queue.length :=
  ⟨(C4_add_task_queue_length_policy (addTask (freshQM 1 3) 100 "a" []).2
      102 "c" []).1 (by decide),
   (C4_add_task_queue_length_policy (freshQM 1000 3) 100 "invoice" []).2.1
      (by decide) (by decide),
   (C4_add_task_queue_length_policy (addTask (freshQM 1 3) 100 "a" []).2
      102 "c" []).2.2 (by decide)⟩

namespace Pipeline

/-- Closed form of extract_structured_data: every canonical field is the
verbatim text of its region when present and null when absent; items is the
parsed_items list of the items_table entry when present, else empty. -/
theorem esd_closed_form (results : List (String × RegionEntry)) :
    extract_structured_data results =
      { invoice_number := (results.lookup "invoice_number").map RegionEntry.text,
        date := (results.lookup "date").map RegionEntry.text,
        total_amount := (results.lookup "total_amount").map RegionEntry.text,
        supplier :=
          { name := (results.lookup "supplier_name").map RegionEntry.text,
            inn := (results.lookup "inn").map RegionEntry.text,
            address := (results.lookup "address").map RegionEntry.text },
        items := ((results.lookup "items_table").bind RegionEntry.parsedItems).getD [],
        payment_info := (results.lookup "payment_info").map RegionEntry.text } := by
  unfold extract_structured_data
  cases results.lookup "invoice_number" <;>
    cases results.lookup "date" <;>
      cases results.lookup "total_amount" <;>
        cases results.lookup "supplier_name" <;>
          cases results.lookup "inn" <;>
            cases results.lookup "address" <;>
              cases results.lookup "payment_info" <;>
                cases results.lookup "items_table"
  all_goals simp
  all_goals (split <;> simp_all)

end Pipeline

open Pipeline in
/-- Claim C10: extract_structured_data returns exactly the canonical fields;
each field whose region is absent is null (items defaults to the empty
list), and each field whose region is present is that region's recognized
text copied verbatim, with no per-kind normalization. -/
theorem C10_extract_structured_data_fields (results : List (String × RegionEntry)) :
    extract_structured_data results =
      { invoice_number := (results.lookup "invoice_number").map RegionEntry.text,
        date := (results.lookup "date").map RegionEntry.text,
        total_amount := (results.lookup "total_amount").map RegionEntry.text,
        supplier :=
          { name := (results.lookup "supplier_name").map RegionEntry.text,
            inn := (results.lookup "inn").map RegionEntry.text,
            address := (results.lookup "address").map RegionEntry.text },
        items := ((results.lookup "items_table").bind RegionEntry.parsedItems).getD [],
        payment_info := (results.lookup "payment_info").map RegionEntry.text } :=
  esd_closed_form results

open Pipeline in
/-- Claim C5 counterexample: a total_amount region whose recognized text is
exactly the claimed line yields that raw line verbatim, not "1500.00";
moreover even DataExtractor's total_amount pattern (which the pipeline never
invokes) has no match on this text, because its capture group
(digits, at most one separator, digits) cannot span the two separators of
"1 500,00". -/
theorem C5_total_amount_not_normalized_cex :
    (extract_structured_data
        [("total_amount", ⟨"Итого: 1 500,00 руб", none⟩)]).total_amount
      = some "Итого: 1 500,00 руб" ∧
    (extract_structured_data
        [("total_amount", ⟨"Итого: 1 500,00 руб", none⟩)]).total_amount
      ≠ some "1500.00" ∧
    reSearch DataExtractor.total_amount_re ("Итого: 1 500,00 руб".toList) = none :=
  ⟨rfl, by decide, by decide⟩

open Pipeline in
/-- Claim C5 amended: the pipeline's StructuredInvoice.total_amount is the
total_amount region's recognized text copied verbatim (so it equals the raw
line, not a normalized decimal); separately, _normalize_amount does map the
amount substring "1 234,50" to "1234.50" when applied to it directly. -/
theorem C5_total_amount_verbatim :
    (∀ (results : List (String × RegionEntry)) (e : RegionEntry),
      results.lookup "total_amount" = some e →
      (extract_structured_data results).total_amount = some e.text) ∧
    DataExtractor.normalize_amount "1 234,50" = "1234.50" := by
  constructor
  · intro results e h
    simp [esd_closed_form, h]
  · decide

open Pipeline in
/-- Witness for C5_total_amount_verbatim at a concrete raw-results map. -/
theorem C5_total_amount_verbatim_witness :
    (extract_structured_data
        [("total_amount", ⟨"Итого: 1500,00 руб", none⟩)]).total_amount
      = some "Итого: 1500,00 руб" :=
  C5_total_amount_verbatim.1 [("total_amount", ⟨"Итого: 1500,00 руб", none⟩)]
    ⟨"Итого: 1500,00 руб", none⟩ rfl

open OCR in
/-- Claim C6 counterexample: "a0b" matches none of the three postprocessing
patterns and is already whitespace-normalized, yet _postprocess_text returns
"aОb" (Cyrillic О), not the input unchanged: the unconditional character
substitutions 0 to О and 1 to I run before any pattern matching. -/
theorem C6_postprocess_substitution_cex :
    reSearch date_pattern ("a0b".toList) = none ∧
    reSearch amount_pattern ("a0b".toList) = none ∧
    reSearch inn_pattern ("a0b".toList) = none ∧
    wsCollapse ("a0b".toList) = "a0b".toList ∧
    postprocess_text "a0b" = "aОb" ∧
    postprocess_text "a0b" ≠ "a0b" :=
  ⟨by decide, by decide, by decide, by decide, by decide, by decide⟩

open OCR in
/-- Claim C6 amended: when none of the three patterns matches the text
obtained after whitespace collapsing and the digit substitutions (0 to О,
1 to I), _postprocess_text returns exactly that text: whitespace collapsing
followed by the two global substitutions, nothing else. -/
theorem C6_postprocess_no_match (s : String)
    (h1 : reSearch date_pattern (subst01 (wsCollapse s.toList)) = none)
    (h2 : reSearch amount_pattern (subst01 (wsCollapse s.toList)) = none)
    (h3 : reSearch inn_pattern (subst01 (wsCollapse s.toList)) = none) :
    postprocess_text s = String.mk (subst01 (wsCollapse s.toList)) := by
  simp only [postprocess_text, h1, h2, h3]

open OCR in
/-- Witness for C6_postprocess_no_match at the concrete input "a0b". -/
theorem C6_postprocess_no_match_witness :
    postprocess_text "a0b" = "aОb" :=
  C6_postprocess_no_match "a0b" (by decide) (by decide) (by decide)

open DataExtractor in
/-- Claim C7: for every supported region kind, extract_data on text in which
the kind's pattern has no match returns value null with the raw text and the
confidence preserved; an unknown region kind likewise returns value null
with the raw text preserved.  (Both branches are total: extract_data never
raises.) -/
theorem C7_extract_no_match_null (α : Type) (text region_type : String)
    (conf : Option α)
    (h : patterns region_type = none ∨
      ∃ re, patterns region_type = some re ∧ reSearch re text.toList = none) :
    extract_data text region_type conf = ⟨none, conf, text⟩ := by
  rcases h with h | ⟨re, h1, h2⟩
  · simp [extract_data, h]
  · have h3 : reSearch re text.data = none := h2
    simp [extract_data, h1, h3]

open DataExtractor in
/-- Witness for C7_extract_no_match_null: a supported kind with no match,
and an unknown kind. -/
theorem C7_extract_no_match_null_witness :
    extract_data "hello world" "date" (some (7 : Nat))
      = ⟨none, some 7, "hello world"⟩ ∧
    extract_data "logo text" "logo" (none (α := Nat))
      = ⟨none, none, "logo text"⟩ :=
  ⟨C7_extract_no_match_null Nat "hello world" "date" (some 7)
      (Or.inr ⟨date_re, rfl, by decide⟩),
   C7_extract_no_match_null Nat "logo text" "logo" none (Or.inl rfl)⟩

/-- Claim C8 (code_bug): the claim (and the source comment next to the loop,
which says the header is skipped) requires that a line containing only the
header keywords is never emitted as a line item.  TableParser.parse_table
keeps line i exactly when i is less than the number of detected row lines
minus one — which keeps line 0, the header — and _parse_table_row applies no
header-keyword check, so whenever structural detection finds at least two
row lines and at least four column positions the header line is emitted as
an item.  This theorem evaluates that input (and contrasts it with
DataExtractor.extract_table_data, which does filter header lines). -/
theorem C8_header_line_emitted :
    TableParser.parse_table [0, 10] [0, 5, 10, 15]
        "Наименование Количество Цена Сумма"
      = .ok [⟨"Наиме", none, none, none⟩] ∧
    containsSub ("наименование".toList)
        (("Наименование Количество Цена Сумма".toList).map pyLowerCh) = true ∧
    DataExtractor.extract_table_data (α := Nat)
        "Наименование Количество Цена Сумма" none = [] :=
  ⟨rfl, by decide, by decide⟩

/-! ## Lemmas for the date-normalization claim. -/

namespace DataExtractor

theorem isDigitCh_digitChar (x : Nat) (h : x < 10) :
    isDigitCh (digitChar x) = true := by
  interval_cases x <;> decide

theorem digitVal_digitChar (x : Nat) (h : x < 10) :
    digitVal (digitChar x) = x := by
  interval_cases x <;> decide

theorem digitChar_ne_slash (x : Nat) (h : x < 10) : digitChar x ≠ '/' := by
  interval_cases x <;> decide

theorem digitChar_ne_dash (x : Nat) (h : x < 10) : digitChar x ≠ '-' := by
  interval_cases x <;> decide

theorem natDecAux_four (k y : Nat) (h1 : 1000 ≤ y) (h2 : y ≤ 9999) :
    natDecAux (k + 3) y =
      [digitChar (y / 1000), digitChar (y / 100 % 10),
       digitChar (y / 10 % 10), digitChar (y % 10)] := by
  have e1 : natDecAux (k + 3) y
      = natDecAux (k + 2) (y / 10) ++ [digitChar (y % 10)] := by
    simp only [natDecAux]
    rw [if_neg (by omega)]
  have e2 : natDecAux (k + 2) (y / 10)
      = natDecAux (k + 1) (y / 100) ++ [digitChar (y / 10 % 10)] := by
    simp only [natDecAux]
    rw [if_neg (by omega)]
    rw [Nat.div_div_eq_div_mul]
  have e3 : natDecAux (k + 1) (y / 100)
      = natDecAux k (y / 1000) ++ [digitChar (y / 100 % 10)] := by
    simp only [natDecAux]
    rw [if_neg (by omega)]
    have : y / 100 / 10 = y / 1000 := by rw [Nat.div_div_eq_div_mul]
    rw [this]
  have e4 : natDecAux k (y / 1000) = [digitChar (y / 1000)] := by
    cases k with
    | zero =>
      simp only [natDecAux]
      rw [Nat.mod_eq_of_lt (by omega)]
    | succ j =>
      simp only [natDecAux]
      rw [if_pos (by omega)]
  rw [e1, e2, e3, e4]
  simp

theorem natDecimal_four (y : Nat) (h1 : 1000 ≤ y) (h2 : y ≤ 9999) :
    natDecimal y =
      [digitChar (y / 1000), digitChar (y / 100 % 10),
       digitChar (y / 10 % 10), digitChar (y % 10)] := by
  unfold natDecimal
  obtain ⟨k, hk⟩ : ∃ k, y = k + 3 := ⟨y - 3, by omega⟩
  calc natDecAux y y = natDecAux (k + 3) y := by rw [← hk]
    _ = _ := natDecAux_four k y h1 h2

theorem replaceAllF_not_mem (c : Char) (new : List Char) :
    ∀ (fuel : Nat) (l : List Char), c ∉ l → replaceAllF [c] new fuel l = l := by
  intro fuel
  induction fuel with
  | zero =>
    intro l _
    cases l <;> rfl
  | succ f ih =>
    intro l h
    cases l with
    | nil => rfl
    | cons a rest =>
      have hca : (c == a) = false := by
        simp only [beq_eq_false_iff_ne]
        intro hca
        exact h (hca ▸ List.mem_cons_self a rest)
      simp only [replaceAllF, List.isPrefixOf, hca, Bool.false_and,
        Bool.false_and, Bool.and_eq_true, Bool.false_eq_true, if_false]
      have : c ∉ rest := fun hr => h (List.mem_cons_of_mem a hr)
      rw [ih rest this]

theorem replaceAll_not_mem (c : Char) (new l : List Char) (h : c ∉ l) :
    replaceAll [c] new l = l :=
  replaceAllF_not_mem c new l.length l h

theorem daysInMonth_le_31 (y m : Nat) : daysInMonth y m ≤ 31 := by
  unfold daysInMonth
  split
  · split <;> omega
  · split <;> omega

/-- The first candidate the strptime day pattern produces on a two-digit
zero-padded day is the day itself with the rest untouched. -/
theorem dayCands_pad2 (d : Nat) (h1 : 1 ≤ d) (h2 : d ≤ 31) (rest : List Char) :
    ∃ tl, dayCands (pad2 d ++ rest) = (d, rest) :: tl := by
  interval_cases d <;> exact ⟨_, rfl⟩

/-- Likewise for the month pattern. -/
theorem monthCands_pad2 (m : Nat) (h1 : 1 ≤ m) (h2 : m ≤ 12) (rest : List Char) :
    ∃ tl, monthCands (pad2 m ++ rest) = (m, rest) :: tl := by
  interval_cases m <;> exact ⟨_, rfl⟩

/-- strptime of the exact output of strftime recovers the date, for real
four-digit years. -/
theorem strptime_strftime (d m y : Nat) (hd1 : 1 ≤ d)
    (hdm : d ≤ daysInMonth y m) (hm1 : 1 ≤ m) (hm2 : m ≤ 12)
    (hy1 : 1000 ≤ y) (hy2 : y ≤ 9999) :
    strptimeDate (strftimeDMY d m y) = some (d, m, y) := by
  have hd31 : d ≤ 31 := le_trans hdm (daysInMonth_le_31 y m)
  obtain ⟨tld, hdc⟩ :=
    dayCands_pad2 d hd1 hd31 ('.' :: (pad2 m ++ '.' :: natDecimal y))
  obtain ⟨tlm, hmc⟩ := monthCands_pad2 m hm1 hm2 ('.' :: natDecimal y)
  have hv : natOfDigits [digitChar (y / 1000), digitChar (y / 100 % 10),
      digitChar (y / 10 % 10), digitChar (y % 10)] = y := by
    unfold natOfDigits
    simp only [List.foldl]
    rw [digitVal_digitChar _ (by omega), digitVal_digitChar _ (by omega),
      digitVal_digitChar _ (by omega), digitVal_digitChar _ (by omega)]
    omega
  have hyear : year4 (natDecimal y) = some (y, []) := by
    rw [natDecimal_four y hy1 hy2]
    simp only [year4]
    rw [isDigitCh_digitChar (y / 1000) (by omega),
      isDigitCh_digitChar (y / 100 % 10) (by omega),
      isDigitCh_digitChar (y / 10 % 10) (by omega),
      isDigitCh_digitChar (y % 10) (by omega)]
    simp [hv]
  have hdmy : strptimeDMY (strftimeDMY d m y) = some (d, m, y) := by
    unfold strftimeDMY strptimeDMY
    rw [List.append_assoc, List.cons_append]
    rw [hdc]
    simp only [tryFirst]
    rw [hmc]
    simp only [tryFirst]
    rw [hyear]
  unfold strptimeDate
  rw [hdmy]
  have h1y : 1 ≤ y := by omega
  simp [h1y, hd1, hdm]

/-- No character other than digits and dots occurs in a strftime output. -/
theorem not_mem_strftime (c : Char) (hdig : ∀ x, x < 10 → digitChar x ≠ c)
    (hdot : '.' ≠ c) (d m y : Nat) (hy1 : 1000 ≤ y) (hy2 : y ≤ 9999) :
    c ∉ strftimeDMY d m y := by
  unfold strftimeDMY pad2
  rw [natDecimal_four y hy1 hy2]
  intro hmem
  simp only [List.mem_append, List.mem_cons, List.not_mem_nil, or_false] at hmem
  rcases hmem with ((h | h) | h | h | h) | h | h | h | h | h <;>
    first
      | exact hdig _ (by omega) h.symm
      | exact hdot h.symm

end DataExtractor

open DataExtractor in
/-- Claim C9 counterexample: a matched date string that fails strict
reparsing is not returned unmodified — the separators have already been
unified.  "32/01/2020" (day 32, no valid reparse) normalizes to
"32.01.2020", not to the original "32/01/2020"; the same shows through the
full extract_data path on "от 32/01/2020". -/
theorem C9_normalize_date_failure_modifies_cex :
    normalize_date "32/01/2020" = "32.01.2020" ∧
    normalize_date "32/01/2020" ≠ "32/01/2020" ∧
    strptimeDate ("32.01.2020".toList) = none ∧
    extract_data (α := Nat) "от 32/01/2020" "date" none
      = ⟨some "32.01.2020", none, "от 32/01/2020"⟩ :=
  ⟨by decide, by decide, by decide, by decide⟩

open DataExtractor in
/-- Claim C9 amended: normalizing a string already in strict DD.MM.YYYY form
(a valid calendar date with a four-digit year of value at least 1000, so
that the platform strftime renders the year identically) returns the same
string; and when the strict reparse fails, the function returns the
separator-unified string (slashes and dashes already replaced by dots),
which differs from the original whenever the original used slash or dash
separators. -/
theorem C9_normalize_date_idempotent_amended :
    (∀ d m y : Nat, 1 ≤ d → d ≤ daysInMonth y m → 1 ≤ m → m ≤ 12 →
        1000 ≤ y → y ≤ 9999 →
        normalize_date (String.mk (strftimeDMY d m y))
          = String.mk (strftimeDMY d m y)) ∧
    (∀ s : String,
        strptimeDate (replaceAll ['-'] ['.'] (replaceAll ['/'] ['.'] s.toList))
          = none →
        normalize_date s
          = String.mk (replaceAll ['-'] ['.'] (replaceAll ['/'] ['.'] s.toList))) := by
  constructor
  · intro d m y hd1 hdm hm1 hm2 hy1 hy2
    have hs : '/' ∉ strftimeDMY d m y :=
      not_mem_strftime '/' (fun x hx => digitChar_ne_slash x hx) (by decide)
        d m y hy1 hy2
    have hh : '-' ∉ strftimeDMY d m y :=
      not_mem_strftime '-' (fun x hx => digitChar_ne_dash x hx) (by decide)
        d m y hy1 hy2
    have htl : (String.mk (strftimeDMY d m y)).toList = strftimeDMY d m y := rfl
    unfold normalize_date
    rw [htl, replaceAll_not_mem '/' ['.'] _ hs, replaceAll_not_mem '-' ['.'] _ hh]
    dsimp only
    rw [strptime_strftime d m y hd1 hdm hm1 hm2 hy1 hy2]
  · intro s h
    unfold normalize_date
    dsimp only
    rw [h]

open DataExtractor in
/-- Witness for C9_normalize_date_idempotent_amended at 31.12.2020 and at
the failing reparse 32/01/2020. -/
theorem C9_normalize_date_idempotent_amended_witness :
    normalize_date (String.mk (strftimeDMY 31 12 2020))
      = String.mk (strftimeDMY 31 12 2020) ∧
    String.mk (strftimeDMY 31 12 2020) = "31.12.2020" ∧
    normalize_date "32/01/2020"
      = String.mk (replaceAll ['-'] ['.'] (replaceAll ['/'] ['.']
          ("32/01/2020".toList))) ∧
    String.mk (replaceAll ['-'] ['.'] (replaceAll ['/'] ['.']
        ("32/01/2020".toList))) = "32.01.2020" :=
  ⟨C9_normalize_date_idempotent_amended.1 31 12 2020 (by decide) (by decide)
      (by decide) (by decide) (by decide) (by decide),
   by decide,
   C9_normalize_date_idempotent_amended.2 "32/01/2020" (by decide),
   by decide⟩

end Invoice

